import Mathlib

/-!
Shallow embedding of `src/import.ts` of msttttk/customize-uploader.

The file models the import pipeline: the Orchestrator `importCustomizeSetting`
(bounded retry around fetch -> manifest write -> asset download), the Manifest
Writer `exportAsManifestFile` and the Asset Downloader `downloadCustomizeFiles`
/ `downloadAndWriteFile`.

Modelling conventions, fixed once for the whole file:

* The file system is explicit state: a set of created directories, a partial
  map from path to file content, and an environment oracle `failing` saying
  which paths a write would fail on (the `err` argument Node passes to the
  `fs.writeFile` callback).
* Asynchronous control flow is embedded faithfully. The try block of
  `importCustomizeSetting` returns the promise chain without awaiting it, so a
  rejection of the chain settles the function's own promise directly and the
  catch block (lines 66-83: authentication localization, `wait(1000)`, the
  retry notice, the recursive re-invocation) can never run — `getAppCustomize`
  returns a promise and throws nothing synchronously, so that catch is dead
  code. The embedding therefore performs one attempt and passes the chain's
  outcome through unchanged.
* `fs.writeFile(p, d, err => { if (err) throw err })` is asynchronous: the
  callback runs on a later event-loop turn, after `exportAsManifestFile` has
  already returned `resp`, so a write error is a later uncaught exception — it
  never fails the stage, never rejects the chain, and does not stop the
  download stage. The embedding records it in the out-of-band `unhandled`
  component.
* A promise the code discards — each `kintoneApiClient.downloadFile(..).then(..)`
  fired inside `forEach` in `downloadAndWriteFile`, whose result nobody chains,
  returns or awaits — is likewise fire-and-forget: its failure is recorded in
  the `unhandled` trace component and does not propagate to the Orchestrator.
* The Remote Client (`KintoneApiClient`, not part of the analysed sources) is
  an oracle per attempt: the result of `getAppCustomize` and a `downloadFile`
  function. Machine-level details (HTTP, proxies, guest spaces) are opaque.
* The trace keeps components for the Orchestrator's `wait(1000)`/`console.log`
  events and for recursive self-invocations, so that the theorems can state
  not only what the run does but also that the dead catch block's effects
  (waiting, the retry notice, the recursion) never occur.
-/

/-- Modelled from the spec: `lang.ts` is not among the analysed sources; the
spec's invocation surface says the language option is `en` or `ja`. -/
inductive Lang where
  | en
  | ja
deriving DecidableEq

/-- The message keys of `messages.ts` used by `import.ts`
(`E_Authentication`, `E_Retry`). -/
inductive MessageKey where
  | eAuthentication
  | eRetry
deriving DecidableEq

/-- Modelled from the spec: `messages.ts` is not among the analysed sources;
the spec only requires a localized catalog ("localized 'authentication error'
message", "localized 'retrying' notice"), so the concrete strings are
placeholders, distinct per language and per key. -/
def getBoundMessage : Lang → MessageKey → String
  | Lang.en, MessageKey.eAuthentication => "Authentication error"
  | Lang.en, MessageKey.eRetry => "Retrying"
  | Lang.ja, MessageKey.eAuthentication => "Authentication error (ja)"
  | Lang.ja, MessageKey.eRetry => "Retrying (ja)"

/-- A JavaScript error value: either an `AuthenticationError` instance thrown
by `KintoneApiClient`, or any other `Error` (network errors, file-system
errors, errors built with `new Error(msg)`), identified by its message. -/
inductive JsError where
  | authentication (msg : String)
  | error (msg : String)
deriving DecidableEq

/-- The `e instanceof AuthenticationError` test of `import.ts` line 66. -/
def isAuthenticationError : JsError → Bool
  | JsError.authentication _ => true
  | JsError.error _ => false

/-- The `scope` field of a customize setting: `"ALL" | "ADMIN" | "NONE"`. -/
inductive Scope where
  | ALL
  | ADMIN
  | NONE
deriving DecidableEq

/-- The JSON rendering of a scope value. -/
def Scope.toJsonString : Scope → String
  | Scope.ALL => "ALL"
  | Scope.ADMIN => "ADMIN"
  | Scope.NONE => "NONE"

/-- `CustomizeFile = UploadedFile | CDNFile`: an asset entry is either an
uploaded binary (`type: "FILE"`, with a `fileKey` and a display `name`) or an
externally hosted URL (`type: "URL"`). -/
inductive CustomizeFile where
  | file (fileKey name : String)
  | url (url : String)
deriving DecidableEq

/-- The `desktop` component of `GetAppCustomizeResp`: `js` and `css` lists. -/
structure DesktopCustomize where
  js : List CustomizeFile
  css : List CustomizeFile
deriving DecidableEq

/-- The `mobile` component of `GetAppCustomizeResp`: a `js` list. -/
structure MobileCustomize where
  js : List CustomizeFile
deriving DecidableEq

/-- `GetAppCustomizeResp`: the remote configuration fetched by
`getAppCustomize`. -/
structure GetAppCustomizeResp where
  scope : Scope
  desktop : DesktopCustomize
  mobile : MobileCustomize
deriving DecidableEq

/-- The `desktop` component of the persisted manifest: lists of strings
(local paths or verbatim URLs). -/
structure ManifestDesktop where
  js : List String
  css : List String
deriving DecidableEq

/-- The `mobile` component of the persisted manifest. -/
structure ManifestMobile where
  js : List String
deriving DecidableEq

/-- `CustomizeManifest` (declared in `index.ts`, constructed at
`import.ts` lines 99-110): the persisted manifest object. -/
structure CustomizeManifest where
  app : String
  scope : Scope
  desktop : ManifestDesktop
  mobile : ManifestMobile
deriving DecidableEq

/-- The local file system state: the set of directories created so far, the
file contents, and the environment's write-failure oracle (which paths a
`fs.writeFile` would report an error for). Writing never changes `failing`:
it is the environment, not program state. -/
structure FileSystem where
  dirs : List String
  files : String → Option String
  failing : String → Option JsError

/-- `fs.existsSync(path)` as used on the destination directory. -/
def existsSync (path : String) (fs : FileSystem) : Bool :=
  path ∈ fs.dirs

/-- `mkdirp.sync(path)`: creates the directory if missing, no-op otherwise. -/
def mkdirpSync (path : String) (fs : FileSystem) : FileSystem :=
  if path ∈ fs.dirs then fs else { fs with dirs := fs.dirs ++ [path] }

/-- `fs.writeFile(path, content, err => ...)`: on success the file content at
`path` is replaced; on failure (per the `failing` oracle) the state is
unchanged and the error is reported to the callback. -/
def FileSystem.tryWrite (fs : FileSystem) (path content : String) :
    FileSystem × Option JsError :=
  match fs.failing path with
  | some e => (fs, some e)
  | none =>
      ({ fs with files := fun q => if q = path then some content else fs.files q },
       none)

/-- One attempt's view of `KintoneApiClient`: the outcome of
`getAppCustomize` for the fixed app of the run, and the `downloadFile`
oracle mapping a file key to the downloaded bytes or a rejection. -/
structure ClientAttempt where
  getAppCustomize : Except JsError GetAppCustomizeResp
  downloadFile : String → Except JsError String

/-- The inner `toNameOrUrl` closure of `exportAsManifestFile`: a `FILE` entry
becomes `destDir + sep + name`, a `URL` entry stays its URL. -/
def toNameOrUrl (sep destDir : String) : CustomizeFile → String
  | CustomizeFile.file _ name => destDir ++ sep ++ name
  | CustomizeFile.url u => u

/-- The `customizeJson` object built by `exportAsManifestFile`
(`import.ts` lines 99-110). -/
def customizeJson (appId destRootDir sep : String)
    (resp : GetAppCustomizeResp) : CustomizeManifest :=
  { app := appId
    scope := resp.scope
    desktop :=
      { js := resp.desktop.js.map
          (toNameOrUrl sep (destRootDir ++ sep ++ "desktop" ++ sep ++ "js"))
        css := resp.desktop.css.map
          (toNameOrUrl sep (destRootDir ++ sep ++ "desktop" ++ sep ++ "css")) }
    mobile :=
      { js := resp.mobile.js.map
          (toNameOrUrl sep (destRootDir ++ sep ++ "mobile" ++ sep ++ "js")) } }

/-- One hexadecimal digit, lowercase, as produced by `JSON.stringify` in
`\u00XX` escapes. -/
def hexDigit (n : Nat) : Char :=
  if n < 10 then Char.ofNat (48 + n) else Char.ofNat (87 + n)

/-- The escaping `JSON.stringify` applies inside a string literal: `"` and
`\` are backslash-escaped, control characters below U+0020 use the short
escapes or `\u00XX`, everything else is kept verbatim. -/
def escapeJsonChar (c : Char) : String :=
  if c = '"' then "\\\""
  else if c = '\\' then "\\\\"
  else if c = '\x08' then "\\b"
  else if c = '\t' then "\\t"
  else if c = '\n' then "\\n"
  else if c = '\x0c' then "\\f"
  else if c = '\r' then "\\r"
  else if c.toNat < 32 then
    "\\u00" ++ String.mk [hexDigit (c.toNat / 16), hexDigit (c.toNat % 16)]
  else String.singleton c

/-- A JSON string literal for `s`, with `JSON.stringify` escaping. -/
def jsonStringLit (s : String) : String :=
  "\"" ++ String.join (s.data.map escapeJsonChar) ++ "\""

/-- A JSON array of string literals as `JSON.stringify(xs, null, 4)` renders
it at nesting depth 2: `[]` when empty, otherwise one item per line indented
by `itemPad`, closed by `]` indented by `closePad`. -/
def jsonStringArray (itemPad closePad : String) (xs : List String) : String :=
  match xs with
  | [] => "[]"
  | _ =>
      "[\n" ++ String.intercalate ",\n" (xs.map (fun s => itemPad ++ jsonStringLit s))
        ++ "\n" ++ closePad ++ "]"

/-- `JSON.stringify(customizeJson, null, 4)`: the exact 4-space-indented text
persisted to `customize-manifest.json` (object keys in insertion order:
`app`, `scope`, `desktop.js`, `desktop.css`, `mobile.js`). -/
def stringifyCustomizeManifest (mfa : CustomizeManifest) : String :=
  "\x7b\n    \"app\": " ++ jsonStringLit mfa.app
    ++ ",\n    \"scope\": " ++ jsonStringLit mfa.scope.toJsonString
    ++ ",\n    \"desktop\": \x7b\n        \"js\": "
    ++ jsonStringArray "            " "        " mfa.desktop.js
    ++ ",\n        \"css\": "
    ++ jsonStringArray "            " "        " mfa.desktop.css
    ++ "\n    \x7d,\n    \"mobile\": \x7b\n        \"js\": "
    ++ jsonStringArray "            " "        " mfa.mobile.js
    ++ "\n    \x7d\n\x7d"

/-- `exportAsManifestFile(appId, destRootDir, resp)` (`import.ts` lines
86-128): builds `customizeJson`, creates `destRootDir` when missing, issues
the `fs.writeFile` of the 4-space-indented JSON to
`destRootDir + sep + "customize-manifest.json"`, and returns `resp`
unconditionally — the write is asynchronous and the function does not wait
for it. An error the environment reports to the write callback is re-thrown
there (`err => { throw err }`), i.e. it becomes a later uncaught exception,
returned here in the middle (out-of-band) component; it is never a failure
of this stage. -/
def exportAsManifestFile (appId destRootDir sep : String)
    (resp : GetAppCustomizeResp) (fs : FileSystem) :
    FileSystem × List JsError × GetAppCustomizeResp :=
  let json := customizeJson appId destRootDir sep resp
  let fs1 := if existsSync destRootDir fs then fs else mkdirpSync destRootDir fs
  match fs1.tryWrite (destRootDir ++ sep ++ "customize-manifest.json")
      (stringifyCustomizeManifest json) with
  | (fs2, none) => (fs2, [], resp)
  | (fs2, some err) => (fs2, [err], resp)

/-- The closure returned by `downloadAndWriteFile(kintoneApiClient, destDir)`
(`import.ts` lines 157-173) applied to one entry, folded over the triple
(file system, `downloadFile` calls made, unhandled rejections): a `URL` entry
returns immediately; a `FILE` entry downloads by `fileKey` and writes the
bytes to `destDir + sep + name`. The download-then-write promise is dropped
by the source (nothing chains on it), so its failures go to `unhandled`. -/
def downloadAndWriteFile (client : ClientAttempt) (destDir sep : String)
    (st : FileSystem × List String × List JsError) (f : CustomizeFile) :
    FileSystem × List String × List JsError :=
  match f with
  | CustomizeFile.url _ => st
  | CustomizeFile.file fileKey name =>
      let fs := st.1
      let calls := st.2.1 ++ [fileKey]
      match client.downloadFile fileKey with
      | Except.error e => (fs, calls, st.2.2 ++ [e])
      | Except.ok content =>
          match fs.tryWrite (destDir ++ sep ++ name) content with
          | (fs2, none) => (fs2, calls, st.2.2)
          | (fs2, some e) => (fs2, calls, st.2.2 ++ [e])

/-- `downloadCustomizeFiles(kintoneApiClient, appId, destDir, resp)`
(`import.ts` lines 130-155): creates the three target subdirectories (with
the trailing separator the source appends), then processes `desktop.js`,
`desktop.css` and `mobile.js` in order through `downloadAndWriteFile`.
Returns the file system together with the `downloadFile` calls made and the
unhandled rejections. -/
def downloadCustomizeFiles (client : ClientAttempt) (appId destDir sep : String)
    (resp : GetAppCustomizeResp) (fs : FileSystem) :
    FileSystem × List String × List JsError :=
  let _ := appId
  let fs := mkdirpSync (destDir ++ sep ++ "desktop" ++ sep ++ "js" ++ sep) fs
  let fs := mkdirpSync (destDir ++ sep ++ "desktop" ++ sep ++ "css" ++ sep) fs
  let fs := mkdirpSync (destDir ++ sep ++ "mobile" ++ sep ++ "js" ++ sep) fs
  let st := resp.desktop.js.foldl
    (downloadAndWriteFile client (destDir ++ sep ++ "desktop" ++ sep ++ "js") sep)
    (fs, [], [])
  let st := resp.desktop.css.foldl
    (downloadAndWriteFile client (destDir ++ sep ++ "desktop" ++ sep ++ "css") sep)
    st
  resp.mobile.js.foldl
    (downloadAndWriteFile client (destDir ++ sep ++ "mobile" ++ sep ++ "js") sep)
    st

/-- The promise chain of one Orchestrator attempt (`import.ts` lines 55-65):
`getAppCustomize`, then `exportAsManifestFile`, then
`downloadCustomizeFiles` (the trailing `.catch(e => { throw e })` re-throws
and changes nothing). The chain can only reject with a fetch rejection: the
manifest write and the per-file downloads are asynchronous operations whose
failures are out-of-band, so after a successful fetch both later stages
always run. Returns the chain's outcome, the file system, the
`downloadFile` calls, and the out-of-band failures (uncaught write-callback
exceptions and unhandled download rejections) of the attempt, in program
order of issuance. -/
def attemptPipeline (client : ClientAttempt) (appId destDir sep : String)
    (fs : FileSystem) :
    Except JsError Unit × FileSystem × List String × List JsError :=
  match client.getAppCustomize with
  | Except.error e => (Except.error e, fs, [], [])
  | Except.ok resp =>
      match exportAsManifestFile appId destDir sep resp fs with
      | (fs1, unhandledW, resp2) =>
          match downloadCustomizeFiles client appId destDir sep resp2 fs1 with
          | (fs2, calls, unhandledD) =>
              (Except.ok (), fs2, calls, unhandledW ++ unhandledD)

/-- `ImportCustomizeManifest`: the local manifest read by `runImport`, of
which the core uses the `app` field. -/
structure ImportCustomizeManifest where
  app : String
deriving DecidableEq

/-- The `status` record threaded through the Orchestrator. -/
structure RetryStatus where
  retryCount : Nat
deriving DecidableEq

/-- The `Option` bundle of `import.ts` (named `UploaderOption` here because
`Option` is taken by Lean's core type). -/
structure UploaderOption where
  lang : Lang
  proxy : String
  guestSpaceId : Nat
  destDir : String

/-- An observable side effect of the Orchestrator: the `wait(1000)` delay or
a `console.log` notice. -/
inductive OrchEvent where
  | wait (ms : Nat)
  | log (msg : String)
deriving DecidableEq

/-- The observable trace threaded through the Orchestrator: file system,
emitted events, number of attempts performed, `downloadFile` calls,
out-of-band failures, and one record per recursive self-invocation of the
catch block (the parent's retry count paired with the status object passed
to the child) — the faithful run never adds an event or a recursion record,
and the trace lets the theorems state exactly that. -/
structure OrchTrace where
  fs : FileSystem
  events : List OrchEvent
  attempts : Nat
  calls : List String
  unhandled : List JsError
  recursions : List (Nat × RetryStatus)

/-- The trace `runImport` starts from: nothing attempted yet. -/
def OrchTrace.init (fs : FileSystem) : OrchTrace :=
  { fs := fs, events := [], attempts := 0, calls := [], unhandled := [],
    recursions := [] }

/-- `importCustomizeSetting(kintoneApiClient, manifest, status, options)`
(`import.ts` lines 42-84). The client oracle is indexed by the attempt
number; `MAX_RETRY_COUNT` (from the absent `constants.ts`; modelled from the
spec as a fixed constant of unspecified value) is kept as a parameter even
though, like the rest of the catch block, it is consulted only by dead code.
The try block builds the attempt's promise chain and returns it without
`await`, so a rejection of the chain settles the returned promise directly,
bypassing the try/catch; and since `getAppCustomize` returns a promise (no
synchronous throw), the catch block — the `instanceof AuthenticationError`
localization, `wait(1000)`, the retry notice, the recursion with a fresh
`{ retryCount + 1 }` status — is unreachable. The faithful result is
one attempt whose outcome (resolution, or the original rejection) is passed
through, with the caller's status record untouched. -/
def importCustomizeSetting (client : Nat → ClientAttempt) (sep : String)
    (manifest : ImportCustomizeManifest) (status : RetryStatus)
    (options : UploaderOption) (maxRetryCount : Nat) (t : OrchTrace) :
    OrchTrace × Except JsError Unit × RetryStatus :=
  let _ := maxRetryCount
  match attemptPipeline (client t.attempts) manifest.app options.destDir sep t.fs with
  | (out, fs1, calls1, unhandled1) =>
      ({ t with fs := fs1, attempts := t.attempts + 1,
                calls := t.calls ++ calls1,
                unhandled := t.unhandled ++ unhandled1 },
       out, status)

/-! ### Characterizations of the file-system effects -/

/-- `dirs` after `mkdirp.sync(p)`, as a pure list operation. -/
def dirsAdd (p : String) (l : List String) : List String :=
  if p ∈ l then l else l ++ [p]

/-- A sequence of file writes applied in order (later writes overwrite). -/
def applyFileWrites (ws : List (String × String)) (g : String → Option String) :
    String → Option String :=
  ws.foldl (fun g pc => fun q => if q = pc.1 then some pc.2 else g q) g

/-- The last value a write sequence assigns to `p`, if any. -/
def lastVal (ws : List (String × String)) (p : String) : Option String :=
  match ws with
  | [] => none
  | pc :: rest =>
      match lastVal rest p with
      | some v => some v
      | none => if pc.1 = p then some pc.2 else none

/-- The file key a `FILE` entry would be downloaded by; `none` for a `URL`. -/
def fileKeyOf : CustomizeFile → Option String
  | CustomizeFile.file k _ => some k
  | CustomizeFile.url _ => none

/-- The writes `downloadAndWriteFile` performs over a list of entries: one
write per `FILE` entry whose download succeeds and whose target path the
environment lets the program write. -/
def entryWrites (client : ClientAttempt) (destDir sep : String)
    (failing : String → Option JsError) : List CustomizeFile → List (String × String) :=
  List.filterMap fun f =>
    match f with
    | CustomizeFile.url _ => none
    | CustomizeFile.file fileKey name =>
        match client.downloadFile fileKey with
        | Except.error _ => none
        | Except.ok content =>
            match failing (destDir ++ sep ++ name) with
            | some _ => none
            | none => some (destDir ++ sep ++ name, content)

/-- The rejections nobody handles over a list of entries: a failed download
or a failed write of a `FILE` entry. -/
def entryUnhandled (client : ClientAttempt) (destDir sep : String)
    (failing : String → Option JsError) : List CustomizeFile → List JsError :=
  List.filterMap fun f =>
    match f with
    | CustomizeFile.url _ => none
    | CustomizeFile.file fileKey name =>
        match client.downloadFile fileKey with
        | Except.error e => some e
        | Except.ok _ =>
            match failing (destDir ++ sep ++ name) with
            | some e => some e
            | none => none

/-- All writes of the Asset Downloader, in source order (desktop js, desktop
css, mobile js). -/
def dlWrites (client : ClientAttempt) (destDir sep : String)
    (failing : String → Option JsError) (resp : GetAppCustomizeResp) :
    List (String × String) :=
  entryWrites client (destDir ++ sep ++ "desktop" ++ sep ++ "js") sep failing
      resp.desktop.js
    ++ entryWrites client (destDir ++ sep ++ "desktop" ++ sep ++ "css") sep failing
      resp.desktop.css
    ++ entryWrites client (destDir ++ sep ++ "mobile" ++ sep ++ "js") sep failing
      resp.mobile.js

theorem mem_dirsAdd_self (p : String) (l : List String) : p ∈ dirsAdd p l := by
  unfold dirsAdd
  split
  · assumption
  · simp

theorem mem_dirsAdd_of_mem (p q : String) (l : List String) (h : q ∈ l) :
    q ∈ dirsAdd p l := by
  unfold dirsAdd
  split
  · exact h
  · simp [h]

theorem dirsAdd_of_mem (p : String) (l : List String) (h : p ∈ l) :
    dirsAdd p l = l := by
  simp [dirsAdd, h]

theorem dirsAdd_seq_absorb (d q1 q2 q3 : String) (l : List String) :
    dirsAdd q3 (dirsAdd q2 (dirsAdd q1 (dirsAdd d
        (dirsAdd q3 (dirsAdd q2 (dirsAdd q1 (dirsAdd d l)))))))
      = dirsAdd q3 (dirsAdd q2 (dirsAdd q1 (dirsAdd d l))) := by
  have hD : d ∈ dirsAdd q3 (dirsAdd q2 (dirsAdd q1 (dirsAdd d l))) :=
    mem_dirsAdd_of_mem q3 d _ (mem_dirsAdd_of_mem q2 d _
      (mem_dirsAdd_of_mem q1 d _ (mem_dirsAdd_self d l)))
  rw [dirsAdd_of_mem d _ hD]
  have h1 : q1 ∈ dirsAdd q3 (dirsAdd q2 (dirsAdd q1 (dirsAdd d l))) :=
    mem_dirsAdd_of_mem q3 q1 _ (mem_dirsAdd_of_mem q2 q1 _
      (mem_dirsAdd_self q1 (dirsAdd d l)))
  rw [dirsAdd_of_mem q1 _ h1]
  have h2 : q2 ∈ dirsAdd q3 (dirsAdd q2 (dirsAdd q1 (dirsAdd d l))) :=
    mem_dirsAdd_of_mem q3 q2 _ (mem_dirsAdd_self q2 (dirsAdd q1 (dirsAdd d l)))
  rw [dirsAdd_of_mem q2 _ h2]
  exact dirsAdd_of_mem q3 _ (mem_dirsAdd_self q3 _)

theorem mkdirpSync_eq (p : String) (fs : FileSystem) :
    mkdirpSync p fs = { fs with dirs := dirsAdd p fs.dirs } := by
  unfold mkdirpSync dirsAdd
  split
  · next h => simp [h]
  · next h => simp [h]

theorem applyFileWrites_nil (g : String → Option String) :
    applyFileWrites [] g = g := rfl

theorem applyFileWrites_cons (p c : String) (ws : List (String × String))
    (g : String → Option String) :
    applyFileWrites ((p, c) :: ws) g
      = applyFileWrites ws (fun q => if q = p then some c else g q) := rfl

theorem applyFileWrites_append (ws1 ws2 : List (String × String))
    (g : String → Option String) :
    applyFileWrites (ws1 ++ ws2) g = applyFileWrites ws2 (applyFileWrites ws1 g) := by
  unfold applyFileWrites
  exact List.foldl_append _ _ _ _

theorem lastVal_cons (pc : String × String) (rest : List (String × String))
    (p : String) :
    lastVal (pc :: rest) p
      = match lastVal rest p with
        | some v => some v
        | none => if pc.1 = p then some pc.2 else none := rfl

theorem applyFileWrites_lookup (ws : List (String × String))
    (g : String → Option String) (p : String) :
    applyFileWrites ws g p
      = match lastVal ws p with
        | some v => some v
        | none => g p := by
  induction ws generalizing g with
  | nil => rfl
  | cons pc rest ih =>
      rw [show applyFileWrites (pc :: rest) g
            = applyFileWrites rest (fun q => if q = pc.1 then some pc.2 else g q) from rfl]
      rw [ih, lastVal_cons]
      rcases h : lastVal rest p with _ | v
      · by_cases hp : pc.1 = p
        · subst hp
          simp
        · have hp' : ¬ p = pc.1 := fun hx => hp hx.symm
          simp [hp, hp']
      · simp

theorem applyFileWrites_idem (ws : List (String × String))
    (g : String → Option String) :
    applyFileWrites ws (applyFileWrites ws g) = applyFileWrites ws g := by
  funext p
  rw [applyFileWrites_lookup ws (applyFileWrites ws g) p,
      applyFileWrites_lookup ws g p]
  rcases lastVal ws p with _ | v <;> rfl

theorem foldl_downloadAndWriteFile (client : ClientAttempt) (destDir sep : String)
    (files : List CustomizeFile) (fs : FileSystem) (calls : List String)
    (unh : List JsError) :
    files.foldl (downloadAndWriteFile client destDir sep) (fs, calls, unh)
      = ({ fs with files :=
            applyFileWrites (entryWrites client destDir sep fs.failing files) fs.files },
         calls ++ files.filterMap fileKeyOf,
         unh ++ entryUnhandled client destDir sep fs.failing files) := by
  induction files generalizing fs calls unh with
  | nil => simp [entryWrites, entryUnhandled, applyFileWrites_nil]
  | cons f rest ih =>
      rw [List.foldl_cons]
      cases f with
      | url u =>
          rw [show downloadAndWriteFile client destDir sep (fs, calls, unh)
                (CustomizeFile.url u) = (fs, calls, unh) from rfl, ih]
          simp [entryWrites, entryUnhandled, fileKeyOf]
      | file fileKey name =>
          rcases hdl : client.downloadFile fileKey with e | content
          · rw [show downloadAndWriteFile client destDir sep (fs, calls, unh)
                  (CustomizeFile.file fileKey name)
                  = (fs, calls ++ [fileKey], unh ++ [e]) from by
                simp [downloadAndWriteFile, hdl]]
            rw [ih]
            simp [entryWrites, entryUnhandled, fileKeyOf, hdl]
          · rcases hfail : fs.failing (destDir ++ sep ++ name) with _ | e
            · rw [show downloadAndWriteFile client destDir sep (fs, calls, unh)
                    (CustomizeFile.file fileKey name)
                    = ({ fs with files := fun q =>
                          if q = destDir ++ sep ++ name then some content
                          else fs.files q },
                       calls ++ [fileKey], unh) from by
                  simp [downloadAndWriteFile, hdl, FileSystem.tryWrite, hfail]]
              rw [ih]
              simp [entryWrites, entryUnhandled, fileKeyOf, hdl, hfail,
                    applyFileWrites_cons]
            · rw [show downloadAndWriteFile client destDir sep (fs, calls, unh)
                    (CustomizeFile.file fileKey name)
                    = (fs, calls ++ [fileKey], unh ++ [e]) from by
                  simp [downloadAndWriteFile, hdl, FileSystem.tryWrite, hfail]]
              rw [ih]
              simp [entryWrites, entryUnhandled, fileKeyOf, hdl, hfail]

theorem downloadCustomizeFiles_eq (client : ClientAttempt)
    (appId destDir sep : String) (resp : GetAppCustomizeResp) (fs : FileSystem) :
    downloadCustomizeFiles client appId destDir sep resp fs
      = ({ dirs := dirsAdd (destDir ++ sep ++ "mobile" ++ sep ++ "js" ++ sep)
             (dirsAdd (destDir ++ sep ++ "desktop" ++ sep ++ "css" ++ sep)
               (dirsAdd (destDir ++ sep ++ "desktop" ++ sep ++ "js" ++ sep) fs.dirs))
           files := applyFileWrites (dlWrites client destDir sep fs.failing resp) fs.files
           failing := fs.failing },
         resp.desktop.js.filterMap fileKeyOf
           ++ resp.desktop.css.filterMap fileKeyOf
           ++ resp.mobile.js.filterMap fileKeyOf,
         entryUnhandled client (destDir ++ sep ++ "desktop" ++ sep ++ "js") sep
             fs.failing resp.desktop.js
           ++ entryUnhandled client (destDir ++ sep ++ "desktop" ++ sep ++ "css") sep
             fs.failing resp.desktop.css
           ++ entryUnhandled client (destDir ++ sep ++ "mobile" ++ sep ++ "js") sep
             fs.failing resp.mobile.js) := by
  unfold downloadCustomizeFiles
  simp only [mkdirpSync_eq, foldl_downloadAndWriteFile]
  simp [dlWrites, applyFileWrites_append, List.append_assoc]

theorem exportAsManifestFile_eq (appId destRootDir sep : String)
    (resp : GetAppCustomizeResp) (fs : FileSystem) :
    exportAsManifestFile appId destRootDir sep resp fs
      = match fs.failing (destRootDir ++ sep ++ "customize-manifest.json") with
        | some e => ({ fs with dirs := dirsAdd destRootDir fs.dirs }, [e], resp)
        | none =>
            ({ dirs := dirsAdd destRootDir fs.dirs
               files := fun q =>
                 if q = destRootDir ++ sep ++ "customize-manifest.json" then
                   some (stringifyCustomizeManifest
                     (customizeJson appId destRootDir sep resp))
                 else fs.files q
               failing := fs.failing },
             [], resp) := by
  unfold exportAsManifestFile existsSync
  have hdirs : (if (destRootDir ∈ fs.dirs : Bool) = true then fs else mkdirpSync destRootDir fs)
      = { fs with dirs := dirsAdd destRootDir fs.dirs } := by
    by_cases h : destRootDir ∈ fs.dirs
    · simp [h, dirsAdd_of_mem _ _ h]
    · simp [h, mkdirpSync_eq]
  rw [hdirs]
  rcases hfail : fs.failing (destRootDir ++ sep ++ "customize-manifest.json") with _ | e
  · simp [FileSystem.tryWrite, hfail]
  · simp [FileSystem.tryWrite, hfail]

/-! ### Concrete sample values used by witnesses and counterexamples -/

/-- An empty file system on which every write succeeds. -/
def sampleFs : FileSystem :=
  { dirs := [], files := fun _ => none, failing := fun _ => none }

/-- A file system on which every write fails with `EACCES`. -/
def allWritesFailFs : FileSystem :=
  { dirs := [], files := fun _ => none,
    failing := fun _ => some (JsError.error "EACCES") }

/-- A remote configuration with a URL entry and two uploaded files. -/
def sampleResp : GetAppCustomizeResp :=
  { scope := Scope.ALL
    desktop :=
      { js := [CustomizeFile.url "https://cdn/x.js", CustomizeFile.file "k1" "a.js"]
        css := [CustomizeFile.file "k2" "b.css"] }
    mobile := { js := [] } }

/-- Options selecting English messages and destination directory `dest`. -/
def sampleOptions : UploaderOption :=
  { lang := Lang.en, proxy := "", guestSpaceId := 0, destDir := "dest" }

/-- A client whose fetch always fails with a network error. -/
def fetchFailClient : Nat → ClientAttempt := fun _ =>
  { getAppCustomize := Except.error (JsError.error "ECONNRESET"),
    downloadFile := fun _ => Except.ok "" }

/-- A client whose fetch always rejects with an `AuthenticationError`. -/
def authFailClient : Nat → ClientAttempt := fun _ =>
  { getAppCustomize := Except.error (JsError.authentication "401"),
    downloadFile := fun _ => Except.ok "" }

/-- A client whose fetch and downloads always succeed. -/
def okClient : Nat → ClientAttempt := fun _ =>
  { getAppCustomize := Except.ok sampleResp,
    downloadFile := fun k => Except.ok ("bytes:" ++ k) }

/-! ### The claims -/

/-- C4: for every fetched remote configuration, the manifest object maps a
`FILE` entry of category/subcategory to the string
`destRootDir/<category>/<subcategory>/<name>` (built with the platform path
separator `sep`) and keeps a `URL` entry's URL verbatim; its `app` field is
the `appId` the operation was invoked with, its `scope` is the remote's
scope, and each of the three lists is the image of the remote's list under
that entry-wise mapping, hence preserves the remote's ordering and length. -/
theorem customizeJson_maps_entries (appId destRootDir sep : String)
    (resp : GetAppCustomizeResp) :
    (customizeJson appId destRootDir sep resp).app = appId
    ∧ (customizeJson appId destRootDir sep resp).scope = resp.scope
    ∧ (customizeJson appId destRootDir sep resp).desktop.js
        = resp.desktop.js.map (fun f =>
            match f with
            | CustomizeFile.file _ name =>
                destRootDir ++ sep ++ "desktop" ++ sep ++ "js" ++ sep ++ name
            | CustomizeFile.url u => u)
    ∧ (customizeJson appId destRootDir sep resp).desktop.css
        = resp.desktop.css.map (fun f =>
            match f with
            | CustomizeFile.file _ name =>
                destRootDir ++ sep ++ "desktop" ++ sep ++ "css" ++ sep ++ name
            | CustomizeFile.url u => u)
    ∧ (customizeJson appId destRootDir sep resp).mobile.js
        = resp.mobile.js.map (fun f =>
            match f with
            | CustomizeFile.file _ name =>
                destRootDir ++ sep ++ "mobile" ++ sep ++ "js" ++ sep ++ name
            | CustomizeFile.url u => u)
    ∧ (customizeJson appId destRootDir sep resp).desktop.js.length
        = resp.desktop.js.length
    ∧ (customizeJson appId destRootDir sep resp).desktop.css.length
        = resp.desktop.css.length
    ∧ (customizeJson appId destRootDir sep resp).mobile.js.length
        = resp.mobile.js.length :=
  ⟨rfl, rfl, rfl, rfl, rfl,
   (List.length_map _ _).symm ▸ rfl,
   (List.length_map _ _).symm ▸ rfl,
   (List.length_map _ _).symm ▸ rfl⟩

/-- C5: the Manifest Writer ensures `destRootDir` exists before writing, and
(when the environment does not fail the write) persists the manifest as the
4-space-indented JSON text at `destRootDir/customize-manifest.json`,
overwriting whatever `fs.files` previously held at that path (the file
system is universally quantified, so the result is independent of any
existing file there). -/
theorem exportAsManifestFile_persists_manifest (appId destRootDir sep : String)
    (resp : GetAppCustomizeResp) (fs : FileSystem)
    (h : fs.failing (destRootDir ++ sep ++ "customize-manifest.json") = none) :
    destRootDir ∈ (exportAsManifestFile appId destRootDir sep resp fs).1.dirs
    ∧ (exportAsManifestFile appId destRootDir sep resp fs).1.files
        (destRootDir ++ sep ++ "customize-manifest.json")
      = some (stringifyCustomizeManifest (customizeJson appId destRootDir sep resp)) := by
  rw [exportAsManifestFile_eq, h]
  exact ⟨mem_dirsAdd_self _ _, by simp⟩

/-- Witness for C5 at a concrete input: the persisted bytes are the literal
4-space-indented JSON text. -/
theorem exportAsManifestFile_persists_manifest_witness :
    "dest" ∈ (exportAsManifestFile "1" "dest" "/" sampleResp sampleFs).1.dirs
    ∧ (exportAsManifestFile "1" "dest" "/" sampleResp sampleFs).1.files
        ("dest" ++ "/" ++ "customize-manifest.json")
      = some (stringifyCustomizeManifest (customizeJson "1" "dest" "/" sampleResp)) :=
  exportAsManifestFile_persists_manifest "1" "dest" "/" sampleResp sampleFs rfl

/-- C8: the Manifest Writer returns its `resp` input unchanged, for every
`appId`, `destRootDir` and remote configuration, and for every file system —
the source's `return resp` runs unconditionally, whether or not the
asynchronous write later fails — enabling the sequencing
`fetch -> write -> download`. -/
theorem exportAsManifestFile_returns_resp (appId destRootDir sep : String)
    (resp : GetAppCustomizeResp) (fs : FileSystem) :
    (exportAsManifestFile appId destRootDir sep resp fs).2.2 = resp := by
  rw [exportAsManifestFile_eq]
  rcases fs.failing (destRootDir ++ sep ++ "customize-manifest.json") with _ | e <;> rfl

/-- C6: the Asset Downloader first ensures the three subdirectories
`desktop/js`, `desktop/css`, `mobile/js` exist under `destDir` (with the
trailing separator the source appends), and the `downloadFile` calls it
makes are exactly the file keys of the `FILE` entries of the three lists in
source order (`URL` entries trigger no call), while the resulting file
contents are the input contents overwritten by one write per `FILE` entry —
the fetched binary stored under the corresponding subdirectory and the
entry's display name (`URL` entries trigger no write; see `entryWrites`). -/
theorem downloadCustomizeFiles_spec (client : ClientAttempt)
    (appId destDir sep : String) (resp : GetAppCustomizeResp) (fs : FileSystem) :
    (destDir ++ sep ++ "desktop" ++ sep ++ "js" ++ sep)
        ∈ (downloadCustomizeFiles client appId destDir sep resp fs).1.dirs
    ∧ (destDir ++ sep ++ "desktop" ++ sep ++ "css" ++ sep)
        ∈ (downloadCustomizeFiles client appId destDir sep resp fs).1.dirs
    ∧ (destDir ++ sep ++ "mobile" ++ sep ++ "js" ++ sep)
        ∈ (downloadCustomizeFiles client appId destDir sep resp fs).1.dirs
    ∧ (downloadCustomizeFiles client appId destDir sep resp fs).2.1
        = resp.desktop.js.filterMap fileKeyOf
          ++ resp.desktop.css.filterMap fileKeyOf
          ++ resp.mobile.js.filterMap fileKeyOf
    ∧ (downloadCustomizeFiles client appId destDir sep resp fs).1.files
        = applyFileWrites (dlWrites client destDir sep fs.failing resp) fs.files := by
  rw [downloadCustomizeFiles_eq]
  exact ⟨mem_dirsAdd_of_mem _ _ _ (mem_dirsAdd_of_mem _ _ _ (mem_dirsAdd_self _ _)),
         mem_dirsAdd_of_mem _ _ _ (mem_dirsAdd_self _ _),
         mem_dirsAdd_self _ _, rfl, rfl⟩

/-- C9: running the full fetch -> manifest-write -> download pipeline a
second time against an unchanged remote configuration (the same client
oracle) leaves the file system of the first run unchanged: the manifest
bytes and every asset file content are identical, whatever the first run
produced (including the failure cases). -/
theorem attemptPipeline_idempotent (client : ClientAttempt)
    (appId destDir sep : String) (fs : FileSystem) :
    (attemptPipeline client appId destDir sep
        ((attemptPipeline client appId destDir sep fs).2.1)).2.1
      = (attemptPipeline client appId destDir sep fs).2.1 := by
  rcases hfetch : client.getAppCustomize with e | resp
  · simp [attemptPipeline, hfetch]
  · rcases hfail : fs.failing (destDir ++ sep ++ "customize-manifest.json") with _ | e
    · simp only [attemptPipeline, hfetch, exportAsManifestFile_eq, hfail,
                 downloadCustomizeFiles_eq]
      refine congrArg₂ (fun a b => FileSystem.mk a b fs.failing) ?_ ?_
      · exact dirsAdd_seq_absorb destDir _ _ _ fs.dirs
      · rw [← applyFileWrites_cons, ← applyFileWrites_cons]
        exact applyFileWrites_idem _ _
    · simp only [attemptPipeline, hfetch, exportAsManifestFile_eq, hfail,
                 downloadCustomizeFiles_eq]
      refine congrArg₂ (fun a b => FileSystem.mk a b fs.failing) ?_ ?_
      · exact dirsAdd_seq_absorb destDir _ _ _ fs.dirs
      · exact applyFileWrites_idem _ _

/-- C1, evaluated at the failing input: a client whose fetch always rejects
with a network error, `retryCount = 0`, `MAX_RETRY_COUNT = 3`. The run
performs exactly one attempt, emits no `wait` and no retry notice, performs
no recursive re-invocation, and rejects with the original error: the retry
behavior the claim (and the dead catch block at `import.ts` lines 66-83)
describes never occurs, because the try block returns the promise chain
without awaiting it and the chain's rejection bypasses the catch. -/
theorem c1_fetch_failure_never_retried :
    (importCustomizeSetting fetchFailClient "/" ⟨"1"⟩ ⟨0⟩ sampleOptions 3
        (OrchTrace.init sampleFs)).1.attempts = 1
    ∧ (importCustomizeSetting fetchFailClient "/" ⟨"1"⟩ ⟨0⟩ sampleOptions 3
        (OrchTrace.init sampleFs)).1.events = []
    ∧ (importCustomizeSetting fetchFailClient "/" ⟨"1"⟩ ⟨0⟩ sampleOptions 3
        (OrchTrace.init sampleFs)).1.recursions = []
    ∧ (importCustomizeSetting fetchFailClient "/" ⟨"1"⟩ ⟨0⟩ sampleOptions 3
        (OrchTrace.init sampleFs)).2.1 = Except.error (JsError.error "ECONNRESET") :=
  ⟨rfl, rfl, rfl, rfl⟩

/-- Counterexample to C2 as stated: at a concrete authentication failure the
call rejects with the original `AuthenticationError`, not with the localized
authentication-error message the claim promises — the catch that would build
`new Error(m("E_Authentication"))` is unreachable for promise rejections. -/
theorem c2_authentication_error_not_localized :
    (importCustomizeSetting authFailClient "/" ⟨"1"⟩ ⟨0⟩ sampleOptions 3
        (OrchTrace.init sampleFs)).2.1
      = Except.error (JsError.authentication "401")
    ∧ (importCustomizeSetting authFailClient "/" ⟨"1"⟩ ⟨0⟩ sampleOptions 3
        (OrchTrace.init sampleFs)).2.1
      ≠ Except.error (JsError.error (getBoundMessage sampleOptions.lang
          MessageKey.eAuthentication))
    ∧ (importCustomizeSetting authFailClient "/" ⟨"1"⟩ ⟨0⟩ sampleOptions 3
        (OrchTrace.init sampleFs)).1.attempts = 1 := by
  have h1 : (importCustomizeSetting authFailClient "/" ⟨"1"⟩ ⟨0⟩ sampleOptions 3
      (OrchTrace.init sampleFs)).2.1 = Except.error (JsError.authentication "401") := rfl
  refine ⟨h1, ?_, rfl⟩
  rw [h1]
  simp

/-- C2 (amended): an `AuthenticationError` rejection of the Remote Client's
fetch, at any retry count and any retry ceiling, makes
`importCustomizeSetting` perform exactly one attempt with no retry (the
attempt counter grows by one; no wait/notice events and no recursion records
are added), and the call fails with the original `AuthenticationError`
itself — the rejection of the returned, never-awaited chain bypasses the
catch, so the localized authentication message is never produced. -/
theorem importCustomizeSetting_authentication_failure (client : Nat → ClientAttempt)
    (sep : String) (manifest : ImportCustomizeManifest) (status : RetryStatus)
    (options : UploaderOption) (maxRetryCount : Nat) (t : OrchTrace) (msg : String)
    (hfetch : (client t.attempts).getAppCustomize
        = Except.error (JsError.authentication msg)) :
    (importCustomizeSetting client sep manifest status options maxRetryCount t).2.1
        = Except.error (JsError.authentication msg)
    ∧ (importCustomizeSetting client sep manifest status options maxRetryCount t).1.attempts
        = t.attempts + 1
    ∧ (importCustomizeSetting client sep manifest status options maxRetryCount t).1.events
        = t.events
    ∧ (importCustomizeSetting client sep manifest status options maxRetryCount t).1.recursions
        = t.recursions := by
  have hap : attemptPipeline (client t.attempts) manifest.app options.destDir sep t.fs
      = (Except.error (JsError.authentication msg), t.fs, [], []) := by
    simp [attemptPipeline, hfetch]
  simp [importCustomizeSetting, hap]

/-- Witness for C2 (amended) at a concrete input, at a nonzero retry count. -/
theorem importCustomizeSetting_authentication_failure_witness :
    (importCustomizeSetting authFailClient "/" ⟨"1"⟩ ⟨2⟩ sampleOptions 3
        (OrchTrace.init sampleFs)).2.1
        = Except.error (JsError.authentication "401")
    ∧ (importCustomizeSetting authFailClient "/" ⟨"1"⟩ ⟨2⟩ sampleOptions 3
        (OrchTrace.init sampleFs)).1.attempts = (OrchTrace.init sampleFs).attempts + 1
    ∧ (importCustomizeSetting authFailClient "/" ⟨"1"⟩ ⟨2⟩ sampleOptions 3
        (OrchTrace.init sampleFs)).1.events = (OrchTrace.init sampleFs).events
    ∧ (importCustomizeSetting authFailClient "/" ⟨"1"⟩ ⟨2⟩ sampleOptions 3
        (OrchTrace.init sampleFs)).1.recursions = (OrchTrace.init sampleFs).recursions :=
  importCustomizeSetting_authentication_failure authFailClient "/" ⟨"1"⟩ ⟨2⟩
    sampleOptions 3 (OrchTrace.init sampleFs) "401" rfl

/-- Counterexample to C3 as stated: a concrete run in which a
non-authentication failure occurs (the manifest write fails with `EACCES`;
the later asset writes fail the same way) and the retry budget is exhausted
(`retryCount = 2`, ceiling 3) — yet nothing is re-raised: the call resolves
successfully and the failures only appear out-of-band, because a write
failure is a later uncaught callback exception, never the function's
rejection. -/
theorem c3_write_failure_not_reraised :
    (importCustomizeSetting okClient "/" ⟨"1"⟩ ⟨2⟩ sampleOptions 3
        (OrchTrace.init allWritesFailFs)).2.1 = Except.ok ()
    ∧ (importCustomizeSetting okClient "/" ⟨"1"⟩ ⟨2⟩ sampleOptions 3
        (OrchTrace.init allWritesFailFs)).1.unhandled
      = [JsError.error "EACCES", JsError.error "EACCES", JsError.error "EACCES"]
    ∧ isAuthenticationError (JsError.error "EACCES") = false
    ∧ ¬ ((2 : Nat) + 1 < 3) :=
  ⟨rfl, rfl, rfl, by omega⟩

/-- C3 (amended): a non-authentication failure of the remote fetch with the
retry budget exhausted makes `importCustomizeSetting` reject with the
original underlying error unchanged and adds no further side effect: no
wait/notice events, no recursion records, exactly one attempt counted. (In
the program every fetch failure behaves this way at every retry count — the
rejection bypasses the catch, so the budget is never actually consulted —
while manifest-write and download failures never propagate at all, see
`c3_write_failure_not_reraised`.) -/
theorem importCustomizeSetting_retry_exhausted (client : Nat → ClientAttempt)
    (sep : String) (manifest : ImportCustomizeManifest) (status : RetryStatus)
    (options : UploaderOption) (maxRetryCount : Nat) (t : OrchTrace) (e : JsError)
    (hfetch : (client t.attempts).getAppCustomize = Except.error e)
    (_hna : isAuthenticationError e = false)
    (_hge : ¬ (status.retryCount + 1 < maxRetryCount)) :
    (importCustomizeSetting client sep manifest status options maxRetryCount t).2.1
        = Except.error e
    ∧ (importCustomizeSetting client sep manifest status options maxRetryCount t).1.events
        = t.events
    ∧ (importCustomizeSetting client sep manifest status options maxRetryCount t).1.recursions
        = t.recursions
    ∧ (importCustomizeSetting client sep manifest status options maxRetryCount t).1.attempts
        = t.attempts + 1 := by
  have hap : attemptPipeline (client t.attempts) manifest.app options.destDir sep t.fs
      = (Except.error e, t.fs, [], []) := by
    simp [attemptPipeline, hfetch]
  simp [importCustomizeSetting, hap]

/-- Witness for C3 (amended) at a concrete input: `retryCount = 2`,
ceiling 3. -/
theorem importCustomizeSetting_retry_exhausted_witness :
    (importCustomizeSetting fetchFailClient "/" ⟨"1"⟩ ⟨2⟩ sampleOptions 3
        (OrchTrace.init sampleFs)).2.1 = Except.error (JsError.error "ECONNRESET")
    ∧ (importCustomizeSetting fetchFailClient "/" ⟨"1"⟩ ⟨2⟩ sampleOptions 3
        (OrchTrace.init sampleFs)).1.events = (OrchTrace.init sampleFs).events
    ∧ (importCustomizeSetting fetchFailClient "/" ⟨"1"⟩ ⟨2⟩ sampleOptions 3
        (OrchTrace.init sampleFs)).1.recursions = (OrchTrace.init sampleFs).recursions
    ∧ (importCustomizeSetting fetchFailClient "/" ⟨"1"⟩ ⟨2⟩ sampleOptions 3
        (OrchTrace.init sampleFs)).1.attempts = (OrchTrace.init sampleFs).attempts + 1 :=
  importCustomizeSetting_retry_exhausted fetchFailClient "/" ⟨"1"⟩ ⟨2⟩ sampleOptions 3
    (OrchTrace.init sampleFs) (JsError.error "ECONNRESET") rfl rfl (by decide)

/-- C7, evaluated at the failing input: fetch succeeds and every local write
fails with `EACCES`. The manifest-write failure does not propagate to the
Orchestrator: the call resolves (`Except.ok ()`), no retry event is emitted,
exactly one attempt is counted, and the download stage still runs (both file
keys are requested) — the write errors appear only among the out-of-band
uncaught-callback failures. This contradicts "fatal and propagate to the
Orchestrator, entering the same retry/failure-handling path as a fetch
failure": the error is re-thrown inside the `fs.writeFile` callback on a
later event-loop turn, after `exportAsManifestFile` has returned. -/
theorem c7_write_failure_not_propagated :
    (importCustomizeSetting okClient "/" ⟨"1"⟩ ⟨0⟩ sampleOptions 3
        (OrchTrace.init allWritesFailFs)).2.1 = Except.ok ()
    ∧ (importCustomizeSetting okClient "/" ⟨"1"⟩ ⟨0⟩ sampleOptions 3
        (OrchTrace.init allWritesFailFs)).1.events = []
    ∧ (importCustomizeSetting okClient "/" ⟨"1"⟩ ⟨0⟩ sampleOptions 3
        (OrchTrace.init allWritesFailFs)).1.attempts = 1
    ∧ (importCustomizeSetting okClient "/" ⟨"1"⟩ ⟨0⟩ sampleOptions 3
        (OrchTrace.init allWritesFailFs)).1.calls = ["k1", "k2"]
    ∧ (importCustomizeSetting okClient "/" ⟨"1"⟩ ⟨0⟩ sampleOptions 3
        (OrchTrace.init allWritesFailFs)).1.unhandled
      = [JsError.error "EACCES", JsError.error "EACCES", JsError.error "EACCES"] :=
  ⟨rfl, rfl, rfl, rfl, rfl⟩

/-- C10: the Orchestrator never mutates the status record its caller passed:
the caller-visible status after the call equals the status before it, for
every outcome (the source reads `retryCount` into a local at line 52 and
line 68 increments only that local; and the one code path that would build a
new status — the recursion at line 77, with a fresh record carrying the
incremented count — is unreachable, so a run started from the initial trace
ends with every recorded recursion, i.e. none, carrying its parent's count
plus one). -/
theorem importCustomizeSetting_status_immutable (client : Nat → ClientAttempt)
    (sep : String) (manifest : ImportCustomizeManifest) (status : RetryStatus)
    (options : UploaderOption) (maxRetryCount : Nat) (fs : FileSystem)
    (t : OrchTrace) :
    (importCustomizeSetting client sep manifest status options maxRetryCount t).2.2
        = status
    ∧ ((importCustomizeSetting client sep manifest status options maxRetryCount
          (OrchTrace.init fs)).1.recursions.all
        (fun pr => pr.2.retryCount == pr.1 + 1)) = true :=
  ⟨rfl, rfl⟩
